import Mathlib

/-!
Shallow embedding of the cache-and-normalize core of the SocialMetricsDjango
repository (src/SocialMetricsDjango/models.py and src/SocialMetricsDjango/API.py).

Conventions of the embedding:
* `datetime` values are modelled as `Int` timestamps (seconds); `.date()` is
  the calendar day `Int.fdiv t 86400`, and `.isoformat()` of a date is
  represented by the day number itself.
* Python dicts whose keys matter are association lists (`List (String × _)`)
  with Python `dict.get` = `List.lookup` (first occurrence) and Python item
  assignment / `dict.update` modelled by `pySetItem` / `pyDictUpdate`.
* `None`-or-exception paths of the Python code are `Option`: a function that
  can raise returns `none` on the raising input.
* The Django ORM table of `ServiceRequest` rows is a `List (Record α)` in
  insertion order; `created_at` is set on append.  `.first()` is the head of
  the filtered list.
* `dateparser.parse` (a third-party library) is an abstract parameter
  `parse : String → Option Int`; `None` from the library is `none`.
* Config constants of the missing settings module (default image/video URLs,
  cache windows) are parameters.
-/

/-- Map a fallible function over a list, failing as a whole when any element
fails: the behavior of a Python loop whose body may raise. -/
def mapOrFail (f : α → Option β) : List α → Option (List β)
  | [] => some []
  | a :: l =>
      match f a, mapOrFail f l with
      | some b, some bs => some (b :: bs)
      | _, _ => none

/-- Python truncated string containment: `a in b` for strings. -/
def pyIn (a b : String) : Bool :=
  decide (a.data <:+: b.data)

/-- Python `str.startswith`. -/
def pyStartsWith (s p : String) : Bool :=
  p.data.isPrefixOf s.data

/-- Python `str.isdigit` restricted to ASCII digits (the only inputs the
YouTube API produces): nonempty and all characters are digits. -/
def pyIsDigit (s : String) : Bool :=
  !s.data.isEmpty && s.data.all Char.isDigit

/-- Numeric value of a digit string. -/
def digitsVal (l : List Char) : Int :=
  l.foldl (fun acc c => acc * 10 + ((c.toNat : Int) - 48)) 0

/-- Python `int(str)`: optional sign and then a nonempty run of digits
(whitespace/underscore forms of CPython are not used by the sources and are
omitted); `none` models the `ValueError` raised on anything else. -/
def pyInt (s : String) : Option Int :=
  let core : List Char → Option Int := fun l =>
    if !l.isEmpty && l.all Char.isDigit then some (digitsVal l) else none
  match s.data with
  | '+' :: rest => core rest
  | '-' :: rest => (core rest).map Int.neg
  | l => core l

/-- Python `round` of the rational `num / den` (`den > 0`): round half to even,
exactly CPython's `round` on the exact quotient. -/
def pyRound (num den : Int) : Int :=
  if 2 * Int.emod num den < den then Int.ediv num den
  else if den < 2 * Int.emod num den then Int.ediv num den + 1
  else if Int.emod (Int.ediv num den) 2 = 0 then Int.ediv num den
  else Int.ediv num den + 1

/-- Python `d[k] = v` on an association-list dict: overwrite the first
occurrence of the key in place, else append. -/
def pySetItem : List (String × Int) → String → Int → List (String × Int)
  | [], k, v => [(k, v)]
  | (k', v') :: rest, k, v =>
      if k' = k then (k', v) :: rest else (k', v') :: pySetItem rest k v

/-- Python `base.update(upd)` on association-list dicts. -/
def pyDictUpdate (base upd : List (String × Int)) : List (String × Int) :=
  upd.foldl (fun d kv => pySetItem d kv.1 kv.2) base

/-- Calendar day of a timestamp: Python `datetime.date()`. -/
def dayOf (t : Int) : Int :=
  Int.fdiv t 86400

/-- `http.HTTPStatus.OK`. -/
def statusOK : Nat := 200

/-- `http.HTTPStatus.INTERNAL_SERVER_ERROR`. -/
def statusInternalError : Nat := 500

/-- One row of the `ServiceRequest` table (models.py): service, params dict,
JSON payload `data` of type `α`, and the `created_at` timestamp. -/
structure Record (α : Type) where
  service : String
  params : List (String × String)
  data : α
  created_at : Int
  deriving Repr, DecidableEq

/-- `ServiceRequest._last_request` (models.py lines 26-41): the most recent
record matching (service, params) with `created_at ≤ date_time`.  The Python
default for `date_time` is `datetime.now()` evaluated once at module load;
callers that rely on the default pass that load-time constant here. -/
def lastRequest (service : String) (params : List (String × String))
    (date_time : Int) (store : List (Record α)) : Option (Record α) :=
  (store.filter fun r =>
    decide (r.service = service ∧ r.params = params ∧ r.created_at ≤ date_time)).foldl
    (fun acc r =>
      match acc with
      | none => some r
      | some m => if m.created_at < r.created_at then some r else acc) none

/-- The result envelope dict returned by the API methods: optional keys of the
Python dicts are `Option` fields. -/
structure Response (α : Type) where
  status : Nat
  cache_response : Option Bool := none
  cache_date : Option Int := none
  result : Option α := none
  error : Option String := none
  deriving Repr, DecidableEq

/-- `APIBase._cache` (API.py lines 39-69).  `loadTime` is the module-load
timestamp bound into `_last_request`'s default argument; `now` is the time of
the call (line 57 evaluates `datetime.now` per call). -/
def cacheLookup (service : String) (params : List (String × String))
    (loadTime now cache_time : Int) (store : List (Record α)) :
    Option (Response α) :=
  match lastRequest service params loadTime store with
  | none => none
  | some last_request =>
      if last_request.created_at < now - cache_time then none
      else some { status := statusOK, cache_response := some true,
                  cache_date := some (dayOf last_request.created_at),
                  result := some last_request.data }

/-- `APIBase._save` as observed through the store: append one record (the
`created_at` auto field is the save time; the Python `try/except` around the
insert never fires in the model). -/
def saveRecord (service : String) (params : List (String × String))
    (data : α) (now : Int) (store : List (Record α)) : List (Record α) :=
  store ++ [{ service := service, params := params, data := data, created_at := now }]

/-- The per-tweet `stats` dict of the ntscraper payload: the four counters the
code reads, each possibly missing (`dict.get(_, 0)`), values Python ints. -/
structure RawStats where
  retweets : Option Int := none
  likes : Option Int := none
  comments : Option Int := none
  quotes : Option Int := none
  deriving Repr, DecidableEq

/-- One raw tweet dict from `scraper.get_tweets`: exactly the keys
`APITwitter.__clean` reads, each possibly missing.  The `user` dict is kept
opaque as a string. -/
structure RawTweet where
  link : Option String := none
  user : Option String := none
  text : Option String := none
  pictures : Option (List String) := none
  videos : Option (List String) := none
  stats : Option RawStats := none
  date : Option String := none
  deriving Repr, DecidableEq

/-- The raw profile dict from `scraper.get_profile_info`: the `joined` string
(possibly missing) and the `stats` dict (present in every scraper payload;
`__clean` indexes it with `profile['stats']`).  Other keys are carried through
unchanged by the code and are not modelled. -/
structure RawProfile where
  joined : Option String := none
  stats : List (String × Int) := []
  deriving Repr, DecidableEq

/-- The Twitter settings constants used by `__clean` (settings.py is not part
of the sources; only the default-video constant reaches the output). -/
structure TwCfg where
  defaultVideo : String
  deriving Repr, DecidableEq

/-- One cleaned tweet dict built by `APITwitter.__clean`'s loop.  The
`datetime` field holds the parsed timestamp (`.isoformat()` is represented by
the timestamp itself). -/
structure CleanTweet where
  user : Option String
  url : String
  text : String
  picture : String
  video : List String
  statistics : RawStats
  datetime : Int
  deriving Repr, DecidableEq

/-- The cleaned profile part of `__clean`'s result: the raw profile with
`joined` replaced by the parsed timestamp and `stats` updated with the
averages. -/
structure CleanProfile where
  joined : Int
  stats : List (String × Int)
  deriving Repr, DecidableEq

/-- The normalized Twitter payload (`__clean`'s return value). -/
structure TwitterData where
  profile : CleanProfile
  tweets : List CleanTweet
  deriving Repr, DecidableEq

/-- The tweet filter of `__clean` line 187:
`self.username in tweet.get('link', '')`. -/
def keepTweet (username : String) (t : RawTweet) : Bool :=
  pyIn username (t.link.getD "")

/-- The hardcoded fallback date string of `__clean` lines 203 and 218. -/
def fallbackDateStr : String := "26/06/2003 15:00"

/-- The argument of `dateparser.parse` at line 203 --
`tweet.get('date', '26/06/2003 15:00')` parsed: the fallback string is parsed
only when the `date` key is missing. -/
def tweetDate (parse : String → Option Int) (t : RawTweet) : Option Int :=
  match t.date with
  | none => parse fallbackDateStr
  | some s => parse s

/-- The tweet dict built at `__clean` lines 196-204.  `none` models the
`AttributeError` raised by `.isoformat()` when `dateparser.parse` returns
`None`. -/
def mkCleanTweet (cfg : TwCfg) (parse : String → Option Int) (t : RawTweet) :
    Option CleanTweet :=
  match tweetDate parse t with
  | none => none
  | some dt =>
      some { user := t.user,
             url := t.link.getD "#",
             text := t.text.getD "",
             picture := match t.pictures with
                        | some (p :: _) => p
                        | _ => "",
             video := t.videos.getD [cfg.defaultVideo],
             statistics := t.stats.getD {},
             datetime := dt }

/-- The accumulated sum of one per-tweet counter over a tweet list
(`__clean` lines 207-210: `int(stats.get(key, 0))`). -/
def statSum (f : RawStats → Option Int) (ts : List RawTweet) : Int :=
  (ts.map fun t => (f (t.stats.getD {})).getD 0).sum

/-- `round(value / total)` guarded by the `total > 0` test of lines 212-216:
zero tweets give 0. -/
def avgOf (value : Int) (total : Nat) : Int :=
  if 0 < total then pyRound value total else 0

/-- The `joined` parse of `__clean` line 218:
`dateparser.parse(profile.get('joined','26/06/2003 15:00')).isoformat()`. -/
def parseJoined (parse : String → Option Int) (profile : RawProfile) : Option Int :=
  match profile.joined with
  | none => parse fallbackDateStr
  | some s => parse s

/-- The `more_statistics` dict of `__clean` lines 192-216 over the (already
filtered) tweet list: the four accumulated counters, each divided by the
tweet count and rounded when that count is positive, all 0 otherwise. -/
def twitterAvgStats (ts : List RawTweet) : List (String × Int) :=
  [("avgRetweets", avgOf (statSum (fun s => s.retweets) ts) ts.length),
   ("avgLikes", avgOf (statSum (fun s => s.likes) ts) ts.length),
   ("avgComments", avgOf (statSum (fun s => s.comments) ts) ts.length),
   ("avgQuotes", avgOf (statSum (fun s => s.quotes) ts) ts.length)]

/-- `APITwitter.__clean` (API.py lines 184-221): filter tweets by username in
link, build the cleaned tweet list, compute the four rounded averages over
the filtered list, parse `joined`, and update the profile stats dict.
`none` models an uncaught exception inside `__clean`. -/
def twitterClean (cfg : TwCfg) (parse : String → Option Int) (username : String)
    (profile : RawProfile) (tweets : List RawTweet) : Option TwitterData :=
  match mapOrFail (mkCleanTweet cfg parse) (tweets.filter (keepTweet username)),
        parseJoined parse profile with
  | some cleanTweets, some joined =>
      some { profile :=
               { joined := joined,
                 stats := pyDictUpdate profile.stats
                   (twitterAvgStats (tweets.filter (keepTweet username))) },
             tweets := cleanTweets }
  | _, _ => none

/-- The Twitter error envelope of `get` lines 170-173. -/
def twitterErrResponse : Response TwitterData :=
  { status := statusInternalError,
    error := some "Twitter Scraper couldn't fetch data" }

/-- `APITwitter.get` (API.py lines 140-182) as a function of the store and of
the outcome of the scraping step.  `tweets`/`profile` are what
`__get_tweets`/`__get_profile_info` returned (`[]`/`none` cover both the
empty-result and the caught-exception paths); the returned pair is the
response envelope and the store after the call.  `none` models an uncaught
exception (one can only arise inside `__clean`). -/
def twitterGet (cfg : TwCfg) (parse : String → Option Int) (username : String)
    (cache : Bool) (loadTime now cache_time : Int)
    (tweets : List RawTweet) (profile : Option RawProfile)
    (store : List (Record TwitterData)) :
    Option (Response TwitterData × List (Record TwitterData)) :=
  let params := [("userName", username)]
  match (if cache then cacheLookup "Twitter" params loadTime now cache_time store
         else none) with
  | some response => some (response, store)
  | none =>
      if tweets.isEmpty then some (twitterErrResponse, store)
      else
        match profile with
        | none => some (twitterErrResponse, store)
        | some p =>
            match twitterClean cfg parse username p tweets with
            | none => none
            | some result =>
                some ({ status := statusOK, cache_response := some false,
                        result := some result },
                      saveRecord "Twitter" params result now store)

/-- One thumbnail dict (`{'url': ...}`) of a YouTube snippet. -/
structure Thumb where
  url : Option String := none
  deriving Repr, DecidableEq

/-- The `thumbnails` dict of a YouTube snippet: the two sizes the code reads. -/
structure Thumbs where
  high : Option Thumb := none
  standard : Option Thumb := none
  deriving Repr, DecidableEq

/-- A channel or video `snippet` dict: the keys `APIYoutube.__clean` reads. -/
structure YtSnippet where
  title : Option String := none
  customUrl : Option String := none
  publishedAt : Option String := none
  thumbnails : Option Thumbs := none
  country : Option String := none
  deriving Repr, DecidableEq

/-- The channel `statistics` dict; the YouTube API serves counters as
strings. -/
structure ChanStats where
  viewCount : Option String := none
  subscriberCount : Option String := none
  videoCount : Option String := none
  deriving Repr, DecidableEq

/-- One item of the `/channels` response used by `__clean`. -/
structure YtChannelItem where
  id : Option String := none
  snippet : Option YtSnippet := none
  statistics : Option ChanStats := none
  deriving Repr, DecidableEq

/-- The `/channels` response as `__get_profile` hands it to `__clean` (its
`totalResults == 1` check has passed, but `items` itself is unchecked). -/
structure YtProfileResp where
  items : List YtChannelItem := []
  deriving Repr, DecidableEq

/-- One item of the `/videos` response: id, snippet, and the raw
`statistics` dict whose keys are preserved by the zip/map at line 415. -/
structure YtVideoItem where
  id : Option String := none
  snippet : Option YtSnippet := none
  statistics : Option (List (String × String)) := none
  deriving Repr, DecidableEq

/-- The `/videos` response as `__get_videos` hands it to `__clean`. -/
structure YtVideosResp where
  items : List YtVideoItem := []
  deriving Repr, DecidableEq

/-- The cleaned YouTube profile dict (`__clean` lines 389-401). -/
structure YtProfile where
  name : Option String
  userName : Option String
  id : Option String
  joined : Option String
  image : String
  country : Option String
  stats : List (String × Int)
  deriving Repr, DecidableEq

/-- One cleaned video dict (`__clean` lines 410-416). -/
structure CleanVideo where
  id : Option String
  title : Option String
  publishedAt : Option String
  image : String
  statistics : List (String × Int)
  deriving Repr, DecidableEq

/-- The normalized YouTube payload (`__clean`'s return value). -/
structure YtData where
  profile : YtProfile
  videos : List CleanVideo
  deriving Repr, DecidableEq

/-- `int(x) if x.isdigit() else 0` (line 415). -/
def coerceStat (s : String) : Int :=
  if pyIsDigit s then digitsVal s.data else 0

/-- `int(profile.get('statistics', {}).get(key, 0))` (lines 397-399): the
missing key gives the int 0; a present value goes through Python `int`,
which raises (`none`) on a non-numeric string. -/
def chanStat (field : Option String) : Option Int :=
  match field with
  | none => some 0
  | some s => pyInt s

/-- `int(stats.get(key, 0))` for one video (lines 417-419); `none` models the
`ValueError` of `int` on a present non-numeric string. -/
def vidStat (key : String) (v : YtVideoItem) : Option Int :=
  match (v.statistics.getD []).lookup key with
  | none => some 0
  | some s => pyInt s

/-- One per-video counter accumulated over the video list (lines 417-419). -/
def vidStatSum (videos : List YtVideoItem) (key : String) : Option Int :=
  (mapOrFail (vidStat key) videos).map List.sum

/-- The video dict built at lines 410-416 (total: no exception can arise
in it). -/
def mkVideo (defaultImg : String) (v : YtVideoItem) : CleanVideo :=
  let snip := v.snippet.getD {}
  { id := v.id,
    title := snip.title,
    publishedAt := snip.publishedAt,
    image := (((snip.thumbnails.getD {}).standard.getD {}).url.getD defaultImg),
    statistics := (v.statistics.getD []).map fun kv => (kv.1, coerceStat kv.2) }

/-- The `more_statistics` dict of `__clean` lines 404-425: the three
accumulated per-video counters, averaged and rounded over the video count
(0 on zero videos); `none` models the `ValueError` of `int` on a present
non-numeric counter. -/
def ytAvgStats (videos : List YtVideoItem) : Option (List (String × Int)) :=
  match vidStatSum videos "viewCount", vidStatSum videos "likeCount",
        vidStatSum videos "commentCount" with
  | some sumV, some sumL, some sumC =>
      some [("avgViews", avgOf sumV videos.length),
            ("avgLikes", avgOf sumL videos.length),
            ("avgComments", avgOf sumC videos.length)]
  | _, _, _ => none

/-- `APIYoutube.__clean` (API.py lines 385-429): take the first channel item,
coerce the channel stats, clean each video, compute the three rounded
averages, and update the profile stats dict.  `defaultImg` is
`YoutubeConfig.DEFAULT_IMG` of the missing settings module.  `none` models an
uncaught exception (`items[0]` on an empty list, or `int` on a non-numeric
string). -/
def ytClean (defaultImg : String) (presp : YtProfileResp) (vresp : YtVideosResp) :
    Option YtData :=
  match presp.items.head? with
  | none => none
  | some c =>
      match chanStat (c.statistics.getD {}).viewCount,
            chanStat (c.statistics.getD {}).subscriberCount,
            chanStat (c.statistics.getD {}).videoCount,
            ytAvgStats vresp.items with
      | some views, some subs, some vids, some avgs =>
          some { profile :=
                   { name := (c.snippet.getD {}).title,
                     userName := (c.snippet.getD {}).customUrl,
                     id := c.id,
                     joined := (c.snippet.getD {}).publishedAt,
                     image := (((c.snippet.getD {}).thumbnails.getD {}).high.getD
                       {}).url.getD defaultImg,
                     country := (c.snippet.getD {}).country,
                     stats := pyDictUpdate
                       [("views", views), ("subscribers", subs), ("videos", vids)]
                       avgs },
                 videos := vresp.items.map (mkVideo defaultImg) }
      | _, _, _, _ => none

/-- The YouTube error envelope of `get` lines 371-374. -/
def ytErrResponse : Response YtData :=
  { status := statusInternalError,
    error := some "Youtube API couldn't fetch data" }

/-- `APIYoutube.get` (API.py lines 359-383) as a function of the store and of
the two fetch outcomes (`none` = the corresponding private fetch returned
`None`).  The `or {...}` fallback at line 380 is dead code: `__clean` always
returns a non-empty dict when it returns.  `none` models an uncaught
exception inside `__clean`. -/
def ytGet (defaultImg : String) (id : String)
    (cache : Bool) (loadTime now cache_time : Int)
    (profile : Option YtProfileResp) (videos : Option YtVideosResp)
    (store : List (Record YtData)) :
    Option (Response YtData × List (Record YtData)) :=
  let params := [("id", id)]
  match (if cache then cacheLookup "Youtube" params loadTime now cache_time store
         else none) with
  | some response => some (response, store)
  | none =>
      match videos, profile with
      | none, _ => some (ytErrResponse, store)
      | some _, none => some (ytErrResponse, store)
      | some v, some p =>
          match ytClean defaultImg p v with
          | none => none
          | some result =>
              some ({ status := statusOK, cache_response := some false,
                      result := some result },
                    saveRecord "Youtube" params result now store)

/-- The state `APIYoutube.__init__` stores: the channel id and the key. -/
structure YtAdapter where
  id : Option String
  api_key : String
  deriving Repr, DecidableEq

/-- The `/channels?forHandle=...` response read by `by_userName`:
`pageInfo.totalResults` (dotted gets with default 0) and `items`.  The outer
`Option` is the `if not response` test (the fetcher returns `{}` on any
transport error). -/
structure HandleSearchResp where
  totalResults : Option Int := none
  items : List YtChannelItem := []
  deriving Repr, DecidableEq

/-- The store predicate of `by_userName` line 286:
`service='Youtube', data__profile__userName__iexact=userName`. -/
def matchesHandle (userName : String) (r : Record YtData) : Bool :=
  r.service == "Youtube" &&
    match r.data.profile.userName with
    | none => false
    | some u => u.toLower == userName.toLower

/-- How one call of `by_userName` ends: `raised` is the uncaught `TypeError`
of line 284, whose broken f-string quoting turns the logger argument into
`str @ str` (the matrix-multiplication operator between two strings), raised
while evaluating the argument and so before the `return None` of line 285;
`returned` is a normal return of the method. -/
inductive ByUserNameResult where
  | raised
  | returned (adapter : Option YtAdapter)
  deriving Repr, DecidableEq

/-- `APIYoutube.by_userName` (API.py lines 268-313) as a function of the
store and of the `/channels` search response.  On an invalid handle the
method raises (see `ByUserNameResult.raised`).  The second component records
whether the network request at line 300 was issued. -/
def byUserName (userName api_key : String) (store : List (Record YtData))
    (netResp : Option HandleSearchResp) : ByUserNameResult × Bool :=
  if !pyStartsWith userName "@" || userName.data.contains ' ' then
    (.raised, false)
  else
    match store.find? (matchesHandle userName) with
    | some service_request =>
        (.returned (some { id := service_request.data.profile.id,
                           api_key := api_key }), false)
    | none =>
        match netResp with
        | none => (.returned none, true)
        | some response =>
            if !(response.totalResults.getD 0 == 1) then (.returned none, true)
            else
              match response.items with
              | [] => (.returned none, true)
              | item :: _ =>
                  match item.id with
                  | none => (.returned none, true)
                  | some youtube_id =>
                      if youtube_id = "" then (.returned none, true)
                      else (.returned (some { id := some youtube_id,
                                              api_key := api_key }), true)

/-- `all(unique=True)` shared by both adapters (API.py lines 236-246 and
444-454): filter the store to this service and params, collect the set of
distinct days, and take the first record of each day. -/
def allUnique (service : String) (params : List (String × String))
    (store : List (Record α)) : List (Record α) :=
  let data := store.filter fun r => decide (r.service = service ∧ r.params = params)
  let days := (data.map fun r => dayOf r.created_at).dedup
  days.filterMap fun day => data.find? fun r => decide (dayOf r.created_at = day)

/-- One `history()` entry: the day (ISO date represented by the day number)
and the `profile.stats` dict of the selected record. -/
structure HistEntry where
  date : Int
  stats : List (String × Int)
  deriving Repr, DecidableEq

/-- `history()` shared by both adapters (API.py lines 248-251 and 456-459);
`statsOf` is `x.data.get('profile', {}).get('stats')` for the payload type. -/
def history (statsOf : α → List (String × Int)) (service : String)
    (params : List (String × String)) (store : List (Record α)) :
    List HistEntry :=
  (allUnique service params store).map fun r =>
    { date := dayOf r.created_at, stats := statsOf r.data }

/-- The `profile.stats` projection `history` reads off a Twitter payload. -/
def twStatsOf (d : TwitterData) : List (String × Int) := d.profile.stats

/-- The `profile.stats` projection `history` reads off a YouTube payload. -/
def ytStatsOf (d : YtData) : List (String × Int) := d.profile.stats

/-! Concrete inputs used by counterexamples and witnesses. -/

/-- A concrete stand-in for `dateparser.parse`: it parses exactly the
hardcoded fallback string (to the timestamp of 2003-06-26T15:00 UTC) and
returns `None` on everything else, as the library does on an unparseable
string. -/
def cparse : String → Option Int := fun s =>
  if s = fallbackDateStr then some 1056639600 else none

/-- A concrete Twitter settings value. -/
def cfg0 : TwCfg := { defaultVideo := "defvid" }

/-- A raw tweet whose link matches user `u` and that has no date key. -/
def twTweet0 : RawTweet := { link := some "u" }

/-- `twitterClean cfg0 cparse "u" {} [twTweet0]`, written out. -/
def twData0 : TwitterData :=
  { profile := { joined := 1056639600,
                 stats := [("avgRetweets", 0), ("avgLikes", 0),
                           ("avgComments", 0), ("avgQuotes", 0)] },
    tweets := [{ user := none, url := "u", text := "", picture := "",
                 video := ["defvid"], statistics := {},
                 datetime := 1056639600 }] }

/-- Two matching raw tweets with retweet counts 3 and 4 and like counts 1
and absent (absent counts as 0). -/
def c5tweets : List RawTweet :=
  [{ link := some "u", stats := some { retweets := some 3, likes := some 1 } },
   { link := some "u", stats := some { retweets := some 4 } }]

/-- A channel item with no statistics, snippet or id at all. -/
def ytItem0 : YtChannelItem := {}

/-- `ytClean "IMG" { items := [ytItem0] } { items := [] }`, written out. -/
def ytData0 : YtData :=
  { profile := { name := none, userName := none, id := none, joined := none,
                 image := "IMG", country := none,
                 stats := [("views", 0), ("subscribers", 0), ("videos", 0),
                           ("avgViews", 0), ("avgLikes", 0), ("avgComments", 0)] },
    videos := [] }

/-- `twitterClean cfg0 cparse "u" {} c5tweets`, written out: retweet counts
3 and 4 average to `round(3.5) = 4` (half to even), like counts 1 and 0 to
`round(0.5) = 0`. -/
def c5data : TwitterData :=
  { profile := { joined := 1056639600,
                 stats := [("avgRetweets", 4), ("avgLikes", 0),
                           ("avgComments", 0), ("avgQuotes", 0)] },
    tweets := [{ user := none, url := "u", text := "", picture := "",
                 video := ["defvid"],
                 statistics := { retweets := some 3, likes := some 1 },
                 datetime := 1056639600 },
               { user := none, url := "u", text := "", picture := "",
                 video := ["defvid"],
                 statistics := { retweets := some 4 },
                 datetime := 1056639600 }] }

/-- A store with two Twitter records for user `u` on the same calendar day. -/
def store10 : List (Record TwitterData) :=
  [{ service := "Twitter", params := [("userName", "u")], data := twData0, created_at := 5 },
   { service := "Twitter", params := [("userName", "u")], data := twData0, created_at := 20 }]

/-! Helper lemmas about the embedding's building blocks. -/

theorem mapOrFail_mem {α β : Type} {f : α → Option β} :
    ∀ {l : List α} {ys : List β}, mapOrFail f l = some ys →
      ∀ y ∈ ys, ∃ x ∈ l, f x = some y := by
  intro l
  induction l with
  | nil =>
      intro ys h y hy
      simp only [mapOrFail, Option.some.injEq] at h
      subst h
      simp at hy
  | cons a l ih =>
      intro ys h y hy
      simp only [mapOrFail] at h
      cases hfa : f a with
      | none => rw [hfa] at h; exact absurd h (by simp)
      | some b =>
          rw [hfa] at h
          cases hml : mapOrFail f l with
          | none => rw [hml] at h; exact absurd h (by simp)
          | some bs =>
              rw [hml] at h
              simp only [Option.some.injEq] at h
              subst h
              rcases List.mem_cons.mp hy with rfl | hmem
              · exact ⟨a, List.mem_cons_self a l, hfa⟩
              · obtain ⟨x, hx, hfx⟩ := ih hml y hmem
                exact ⟨x, List.mem_cons_of_mem a hx, hfx⟩

theorem mapOrFail_eq_none {α β : Type} {f : α → Option β} :
    ∀ {l : List α} {x : α}, x ∈ l → f x = none → mapOrFail f l = none := by
  intro l
  induction l with
  | nil => intro x hx; simp at hx
  | cons a l ih =>
      intro x hx hfx
      rcases List.mem_cons.mp hx with rfl | hmem
      · simp [mapOrFail, hfx]
      · have hl := ih hmem hfx
        simp only [mapOrFail, hl]
        cases f a <;> rfl

theorem lookup_pySetItem_self (d : List (String × Int)) (k : String) (v : Int) :
    (pySetItem d k v).lookup k = some v := by
  induction d with
  | nil => simp [pySetItem, List.lookup]
  | cons kv rest ih =>
      obtain ⟨k', v'⟩ := kv
      by_cases h : k' = k
      · subst h; simp [pySetItem, List.lookup]
      · have hb : (k == k') = false := beq_eq_false_iff_ne.mpr (Ne.symm h)
        simp [pySetItem, h, List.lookup, hb, ih]

theorem lookup_pySetItem_ne (d : List (String × Int)) (k₁ k₂ : String) (v : Int)
    (h : k₁ ≠ k₂) : (pySetItem d k₂ v).lookup k₁ = d.lookup k₁ := by
  induction d with
  | nil =>
      have hb : (k₁ == k₂) = false := beq_eq_false_iff_ne.mpr h
      simp [pySetItem, List.lookup, hb]
  | cons kv rest ih =>
      obtain ⟨k', v'⟩ := kv
      by_cases hk : k' = k₂
      · subst hk
        have hb : (k₁ == k') = false := beq_eq_false_iff_ne.mpr h
        simp [pySetItem, List.lookup, hb]
      · simp only [pySetItem, if_neg hk]
        by_cases he : k₁ = k'
        · subst he; simp [List.lookup]
        · have hb : (k₁ == k') = false := beq_eq_false_iff_ne.mpr he
          simp [List.lookup, hb, ih]

theorem pyRound_nearest (num den : Int) (h : 0 < den) :
    -den ≤ 2 * (num - den * pyRound num den) ∧
      2 * (num - den * pyRound num den) ≤ den := by
  have hmod : 0 ≤ Int.emod num den := Int.emod_nonneg num (ne_of_gt h)
  have hlt : Int.emod num den < den := Int.emod_lt_of_pos num h
  have heq : den * Int.ediv num den + Int.emod num den = num := Int.ediv_add_emod num den
  unfold pyRound
  split_ifs <;> constructor <;> nlinarith [heq, hmod, hlt]

theorem pickLatest_mem {α : Type} :
    ∀ (l : List (Record α)) (acc : Option (Record α)) (r : Record α),
      l.foldl (fun acc r =>
        match acc with
        | none => some r
        | some m => if m.created_at < r.created_at then some r else acc) acc = some r →
      acc = some r ∨ r ∈ l := by
  intro l
  induction l with
  | nil => intro acc r h; simp only [List.foldl_nil] at h; exact Or.inl h
  | cons a l ih =>
      intro acc r h
      rw [List.foldl_cons] at h
      rcases ih _ r h with hacc | hmem
      · cases acc with
        | none =>
            simp only [Option.some.injEq] at hacc
            exact Or.inr (hacc ▸ List.mem_cons_self a l)
        | some m =>
            have hacc' : (if m.created_at < a.created_at then some a else some m)
                = some r := hacc
            by_cases hlt : m.created_at < a.created_at
            · rw [if_pos hlt] at hacc'
              simp only [Option.some.injEq] at hacc'
              exact Or.inr (hacc' ▸ List.mem_cons_self a l)
            · rw [if_neg hlt] at hacc'
              exact Or.inl hacc'
      · exact Or.inr (List.mem_cons_of_mem a hmem)

/-! The claims. -/

/-- C1: the claimed contract "a lookup at `t0 + w` hits iff `w ≤ W`" breaks
on the code because `_cache` calls `_last_request` with its default
`date_time`, bound once at module load.  First conjunct (the failing input):
a record created at `t0 = 1`, after the load time 0, is missed by a lookup
at `now = t0` (age 0) with window 100.  Second conjunct: for a record created
at or before load time the boundary age `w = W` is a hit, with status OK,
`cache_response` true, the record's creation date and its payload. -/
theorem c1_cache_hit_iff_fresh_fails_after_load :
    cacheLookup "Twitter" [("userName", "x")] 0 1 100
      [{ service := "Twitter", params := [("userName", "x")], data := (),
         created_at := 1 }] = none ∧
    cacheLookup "Twitter" [("userName", "x")] 0 100 100
      [{ service := "Twitter", params := [("userName", "x")], data := (),
         created_at := 0 }]
      = some { status := statusOK, cache_response := some true,
               cache_date := some 0, result := some () } :=
  ⟨rfl, rfl⟩

/-- C9: the reference "now" of `_last_request`'s default argument is the one
fixed module-load timestamp, so any record the default-argument lookup
returns was created at or before `loadTime`, and when every matching record
was created after `loadTime` the default-argument lookup finds nothing. -/
theorem c9_default_now_bound_at_load :
    ∀ (α : Type) (service : String) (params : List (String × String))
      (loadTime : Int) (store : List (Record α)),
      (∀ r : Record α, lastRequest service params loadTime store = some r →
        r.created_at ≤ loadTime) ∧
      ((∀ r ∈ store, r.service = service → r.params = params →
          loadTime < r.created_at) →
        lastRequest service params loadTime store = none) := by
  intro α service params loadTime store
  constructor
  · intro r h
    unfold lastRequest at h
    rcases pickLatest_mem _ none r h with hacc | hmem
    · exact absurd hacc (by simp)
    · have hm := List.mem_filter.mp hmem
      exact (of_decide_eq_true hm.2).2.2
  · intro hall
    unfold lastRequest
    have hnil : store.filter (fun r =>
        decide (r.service = service ∧ r.params = params ∧ r.created_at ≤ loadTime)) = [] := by
      apply List.filter_eq_nil_iff.mpr
      intro r hr hdec
      have hp := of_decide_eq_true hdec
      exact absurd (hall r hr hp.1 hp.2.1) (not_lt.mpr hp.2.2)
    rw [hnil]
    rfl

/-- Witness for C9 at a concrete input: a store whose only record was created
at time 5, after the load time 0, is invisible to the default-argument
lookup. -/
theorem c9_witness :
    lastRequest "Twitter" [("userName", "u")] 0
      [{ service := "Twitter", params := [("userName", "u")], data := (),
         created_at := 5 }] = none :=
  (c9_default_now_bound_at_load Unit "Twitter" [("userName", "u")] 0
      [{ service := "Twitter", params := [("userName", "u")], data := (),
         created_at := 5 }]).2
    (by
      intro r hr h1 h2
      rw [List.mem_singleton] at hr
      subst hr
      decide)

/-- C4: the claim says an invalid handle (no leading `@`, or a space)
returns `None` without a network call, but on that path the code raises an
uncaught `TypeError` first: line 284's unescaped quotes make the logger
argument the expression `f-string @ string` (matrix multiplication of two
strings), evaluated before the `return None` of line 285.  The theorem
proves that for every such handle `by_userName` raises — it never returns —
and that the channel-search network request is indeed never issued. -/
theorem c4_invalid_handle_raises :
    ∀ (userName api_key : String) (store : List (Record YtData))
      (netResp : Option HandleSearchResp),
      (pyStartsWith userName "@" = false ∨ userName.data.contains ' ' = true) →
      byUserName userName api_key store netResp = (.raised, false) := by
  intro userName api_key store netResp h
  rcases h with h | h
  · simp [byUserName, h]
  · have h' : ' ' ∈ userName.data := by simpa using h
    simp [byUserName, h']

/-- Witness for C4 at the concrete failing input: the handle `"bad name"`
(no `@`, embedded space) makes `by_userName` raise, with no network call. -/
theorem c4_witness :
    byUserName "bad name" "key" [] none = (.raised, false) :=
  c4_invalid_handle_raises "bad name" "key" [] none (Or.inl (by decide))

/-- C8: once no stored record matches the handle and the search call is made,
a `totalResults` different from 1 yields `None` (and the network call did
happen), and an adapter comes back only when `totalResults = 1` and the first
item carries a non-empty channel id, which becomes the adapter's id. -/
theorem c8_handle_search_requires_unique_result :
    ∀ (userName api_key : String) (store : List (Record YtData))
      (resp : HandleSearchResp),
      pyStartsWith userName "@" = true →
      userName.data.contains ' ' = false →
      store.find? (matchesHandle userName) = none →
      ((resp.totalResults.getD 0 ≠ 1 →
          byUserName userName api_key store (some resp)
            = (.returned none, true)) ∧
       (∀ a, (byUserName userName api_key store (some resp)).1
            = .returned (some a) →
          resp.totalResults.getD 0 = 1 ∧
          ∃ item rest, resp.items = item :: rest ∧
            ∃ id, item.id = some id ∧ id ≠ "" ∧ a.id = some id)) := by
  intro userName api_key store resp hat hsp hfind
  have hsp' : ' ' ∉ userName.data := by simpa using hsp
  constructor
  · intro hne
    simp [byUserName, hat, hsp', hfind, hne]
  · intro a ha
    by_cases htr : resp.totalResults.getD 0 = 1
    · refine ⟨htr, ?_⟩
      cases hitems : resp.items with
      | nil =>
          exfalso
          simp [byUserName, hat, hsp', hfind, htr, hitems] at ha
      | cons item rest =>
          cases hid : item.id with
          | none =>
              exfalso
              simp [byUserName, hat, hsp', hfind, htr, hitems, hid] at ha
          | some youtube_id =>
              by_cases hemp : youtube_id = ""
              · exfalso
                simp [byUserName, hat, hsp', hfind, htr, hitems, hid, hemp] at ha
              · simp only [byUserName, hat, hsp', hfind, htr, hitems, hid] at ha
                simp [hemp, hsp'] at ha
                refine ⟨item, rest, rfl, youtube_id, hid, hemp, ?_⟩
                subst ha
                rfl
    · exfalso
      simp [byUserName, hat, hsp', hfind, htr] at ha

/-- Witness for C8 at concrete inputs: a search response with two results
yields `None` after a network call for the valid handle `"@u"` over an empty
store. -/
theorem c8_witness :
    byUserName "@u" "key" [] (some { totalResults := some 2, items := [] })
      = (.returned none, true) :=
  (c8_handle_search_requires_unique_result "@u" "key" []
      { totalResults := some 2, items := [] } (by decide) (by decide) rfl).1
    (by decide)

theorem filterMap_find_map_sublist {β : Type} (data : List β) (dateF : β → Int) :
    ∀ l : List Int,
      ((l.filterMap fun day => data.find? fun r => decide (dateF r = day)).map
        dateF).Sublist l := by
  intro l
  induction l with
  | nil => simp
  | cons d ds ih =>
      rw [List.filterMap_cons]
      cases hf : data.find? (fun r => decide (dateF r = d)) with
      | none => exact ih.cons d
      | some b =>
          have hpb := List.find?_some hf
          have hb : dateF b = d := of_decide_eq_true hpb
          rw [List.map_cons, hb]
          exact ih.cons₂ d

/-- C10: `history()` carries pairwise-distinct calendar days (at most one
entry per day however many records share the day), and every entry is the
day and `profile.stats` of one record of the store that matches the
adapter's service and params and was created on that day. -/
theorem c10_history_one_entry_per_day :
    ∀ (α : Type) (statsOf : α → List (String × Int)) (service : String)
      (params : List (String × String)) (store : List (Record α)),
      ((history statsOf service params store).map HistEntry.date).Nodup ∧
      (∀ e ∈ history statsOf service params store,
        ∃ r ∈ store, r.service = service ∧ r.params = params ∧
          dayOf r.created_at = e.date ∧ e.stats = statsOf r.data) := by
  intro α statsOf service params store
  constructor
  · have hmap : (history statsOf service params store).map HistEntry.date
        = (allUnique service params store).map (fun r => dayOf r.created_at) := by
      simp [history, List.map_map]
    rw [hmap]
    unfold allUnique
    exact (filterMap_find_map_sublist _ _ _).nodup (List.nodup_dedup _)
  · intro e he
    unfold history at he
    obtain ⟨r, hr, hre⟩ := List.mem_map.mp he
    unfold allUnique at hr
    obtain ⟨day, hday, hfind⟩ := List.mem_filterMap.mp hr
    have hmem := List.mem_filter.mp (List.mem_of_find?_eq_some hfind)
    have hp := of_decide_eq_true hmem.2
    subst hre
    exact ⟨r, hmem.1, hp.1, hp.2, rfl, rfl⟩

/-- Witness for C10 at a concrete input: over a store holding two records of
the same day, `history` has the one entry of that day, coming from a record
of the store. -/
theorem c10_witness :
    ∃ r ∈ store10, r.service = "Twitter" ∧ r.params = [("userName", "u")] ∧
      dayOf r.created_at
        = (⟨0, twData0.profile.stats⟩ : HistEntry).date ∧
      (⟨0, twData0.profile.stats⟩ : HistEntry).stats = twStatsOf r.data :=
  (c10_history_one_entry_per_day TwitterData twStatsOf "Twitter"
      [("userName", "u")] store10).2
    ⟨0, twData0.profile.stats⟩ (by decide)

/-- C2: for either adapter's `get`, once the cache step yields nothing
(flag off or lookup miss), an empty content list or an empty/missing profile
produces the INTERNAL_ERROR envelope with the adapter's error message and
leaves the store unchanged; a successful non-cached fetch appends exactly one
record; and a cache hit returns the cached envelope and appends nothing. -/
theorem c2_error_envelope_and_single_append :
    (∀ (cfg : TwCfg) (parse : String → Option Int) (username : String)
       (loadTime now cache_time : Int) (tweets : List RawTweet)
       (profile : Option RawProfile) (store : List (Record TwitterData)),
      (∀ cache : Bool,
        (cache = false ∨
            cacheLookup "Twitter" [("userName", username)] loadTime now cache_time
              store = none) →
        ((tweets = [] ∨ profile = none) →
          twitterGet cfg parse username cache loadTime now cache_time tweets profile
              store
            = some (twitterErrResponse, store)) ∧
        (∀ p result, profile = some p →
          twitterClean cfg parse username p tweets = some result → tweets ≠ [] →
          twitterGet cfg parse username cache loadTime now cache_time tweets profile
              store
            = some ({ status := statusOK, cache_response := some false,
                      result := some result },
                    saveRecord "Twitter" [("userName", username)] result now store))) ∧
      (∀ resp,
        cacheLookup "Twitter" [("userName", username)] loadTime now cache_time store
          = some resp →
        twitterGet cfg parse username true loadTime now cache_time tweets profile
            store
          = some (resp, store))) ∧
    (∀ (defaultImg id : String) (loadTime now cache_time : Int)
       (profile : Option YtProfileResp) (videos : Option YtVideosResp)
       (store : List (Record YtData)),
      (∀ cache : Bool,
        (cache = false ∨
            cacheLookup "Youtube" [("id", id)] loadTime now cache_time store
              = none) →
        ((videos = none ∨ profile = none) →
          ytGet defaultImg id cache loadTime now cache_time profile videos store
            = some (ytErrResponse, store)) ∧
        (∀ p v result, profile = some p → videos = some v →
          ytClean defaultImg p v = some result →
          ytGet defaultImg id cache loadTime now cache_time profile videos store
            = some ({ status := statusOK, cache_response := some false,
                      result := some result },
                    saveRecord "Youtube" [("id", id)] result now store))) ∧
      (∀ resp,
        cacheLookup "Youtube" [("id", id)] loadTime now cache_time store
          = some resp →
        ytGet defaultImg id true loadTime now cache_time profile videos store
          = some (resp, store))) := by
  constructor
  · intro cfg parse username loadTime now cache_time tweets profile store
    constructor
    · intro cache hmiss
      have hc : (if cache then
          cacheLookup "Twitter" [("userName", username)] loadTime now cache_time store
          else none) = none := by
        rcases hmiss with h | h
        · rw [h]; rfl
        · cases cache <;> simp [h]
      constructor
      · intro hemp
        rcases hemp with rfl | rfl
        · simp [twitterGet, hc]
        · cases tweets <;> simp [twitterGet, hc]
      · intro p result hp hclean hne
        subst hp
        cases tweets with
        | nil => exact absurd rfl hne
        | cons t ts => simp [twitterGet, hc, hclean, saveRecord]
    · intro resp hhit
      simp [twitterGet, hhit]
  · intro defaultImg id loadTime now cache_time profile videos store
    constructor
    · intro cache hmiss
      have hc : (if cache then
          cacheLookup "Youtube" [("id", id)] loadTime now cache_time store
          else none) = none := by
        rcases hmiss with h | h
        · rw [h]; rfl
        · cases cache <;> simp [h]
      constructor
      · intro hemp
        rcases hemp with rfl | rfl
        · simp [ytGet, hc]
        · cases videos <;> simp [ytGet, hc]
      · intro p v result hp hv hclean
        subst hp; subst hv
        simp [ytGet, hc, hclean, saveRecord]
    · intro resp hhit
      simp [ytGet, hhit]

/-- Witness for C2 at concrete inputs: the error envelope with unchanged
store on an empty fetch, the single appended record on a successful fetch,
and the unchanged store on a cache hit, for each adapter. -/
theorem c2_witness :
    twitterGet cfg0 cparse "u" false 0 7 100 [] none []
      = some (twitterErrResponse, []) ∧
    twitterGet cfg0 cparse "u" false 0 7 100 [twTweet0] (some {}) []
      = some ({ status := statusOK, cache_response := some false,
                result := some twData0 },
              saveRecord "Twitter" [("userName", "u")] twData0 7 []) ∧
    twitterGet cfg0 cparse "u" true 0 0 0 [] none
        [{ service := "Twitter", params := [("userName", "u")], data := twData0,
           created_at := 0 }]
      = some ({ status := statusOK, cache_response := some true,
                cache_date := some 0, result := some twData0 },
              [{ service := "Twitter", params := [("userName", "u")],
                 data := twData0, created_at := 0 }]) ∧
    ytGet "IMG" "cid" false 0 7 100 none none []
      = some (ytErrResponse, []) ∧
    ytGet "IMG" "cid" false 0 7 100 (some { items := [ytItem0] })
        (some { items := [] }) []
      = some ({ status := statusOK, cache_response := some false,
                result := some ytData0 },
              saveRecord "Youtube" [("id", "cid")] ytData0 7 []) ∧
    ytGet "IMG" "cid" true 0 0 0 none none
        [{ service := "Youtube", params := [("id", "cid")], data := ytData0,
           created_at := 0 }]
      = some ({ status := statusOK, cache_response := some true,
                cache_date := some 0, result := some ytData0 },
              [{ service := "Youtube", params := [("id", "cid")],
                 data := ytData0, created_at := 0 }]) :=
  ⟨((c2_error_envelope_and_single_append.1 cfg0 cparse "u" 0 7 100 [] none []).1
      false (Or.inl rfl)).1 (Or.inl rfl),
   ((c2_error_envelope_and_single_append.1 cfg0 cparse "u" 0 7 100 [twTweet0]
      (some {}) []).1 false (Or.inl rfl)).2 {} twData0 rfl (by rfl)
      (by simp),
   (c2_error_envelope_and_single_append.1 cfg0 cparse "u" 0 0 0 [] none
      [{ service := "Twitter", params := [("userName", "u")], data := twData0,
         created_at := 0 }]).2
      { status := statusOK, cache_response := some true, cache_date := some 0,
        result := some twData0 } (by rfl),
   ((c2_error_envelope_and_single_append.2 "IMG" "cid" 0 7 100 none none []).1
      false (Or.inl rfl)).1 (Or.inl rfl),
   ((c2_error_envelope_and_single_append.2 "IMG" "cid" 0 7 100
      (some { items := [ytItem0] }) (some { items := [] }) []).1 false
      (Or.inl rfl)).2 { items := [ytItem0] } { items := [] } ytData0 rfl rfl
      (by rfl),
   (c2_error_envelope_and_single_append.2 "IMG" "cid" 0 0 0 none none
      [{ service := "Youtube", params := [("id", "cid")], data := ytData0,
         created_at := 0 }]).2
      { status := statusOK, cache_response := some true, cache_date := some 0,
        result := some ytData0 } (by rfl)⟩

/-- C3 counterexample: a tweet whose date string is present but fails to
parse does not get the fallback date — `dateparser.parse` returns `None` and
the `.isoformat()` call raises, so normalization produces nothing at all
(the fallback string itself parses fine under the same parse function). -/
theorem c3_counterexample :
    cparse "garbage" = none ∧
    cparse fallbackDateStr = some 1056639600 ∧
    twitterClean cfg0 cparse "u" {}
      [{ link := some "u", date := some "garbage" }] = none :=
  ⟨rfl, rfl, rfl⟩

/-- C3 amended: the hardcoded fallback `26/06/2003 15:00` is parsed (and its
value used for the tweet's datetime, and likewise for the profile's `joined`)
exactly when the date key is missing from the tweet (resp. the profile); a
present date string is handed to `dateparser.parse` as is, and when that
parse fails normalization raises instead of substituting the fallback. -/
theorem c3_missing_date_fallback :
    ∀ (cfg : TwCfg) (parse : String → Option Int) (username : String)
      (profile : RawProfile) (tweets : List RawTweet) (fbT : Int),
      parse fallbackDateStr = some fbT →
      (∀ d, twitterClean cfg parse username profile tweets = some d →
        (profile.joined = none → d.profile.joined = fbT) ∧
        (∀ t ∈ d.tweets, ∃ rt ∈ tweets, keepTweet username rt = true ∧
          ((rt.date = none ∧ t.datetime = fbT) ∨
           (∃ s, rt.date = some s ∧ parse s = some t.datetime)))) ∧
      (∀ rt ∈ tweets, keepTweet username rt = true →
        ∀ s, rt.date = some s → parse s = none →
        twitterClean cfg parse username profile tweets = none) ∧
      (∀ s, profile.joined = some s → parse s = none →
        twitterClean cfg parse username profile tweets = none) := by
  intro cfg parse username profile tweets fbT hfb
  refine ⟨?_, ?_, ?_⟩
  · intro d hd
    unfold twitterClean at hd
    cases hmap : mapOrFail (mkCleanTweet cfg parse)
        (tweets.filter (keepTweet username)) with
    | none => rw [hmap] at hd; exact absurd hd (by simp)
    | some cleanTweets =>
        cases hjoin : parseJoined parse profile with
        | none => rw [hmap, hjoin] at hd; exact absurd hd (by simp)
        | some joined =>
            rw [hmap, hjoin] at hd
            simp only [Option.some.injEq] at hd
            subst hd
            constructor
            · intro hj
              unfold parseJoined at hjoin
              rw [hj, hfb] at hjoin
              simp only [Option.some.injEq] at hjoin
              exact hjoin.symm
            · intro t ht
              obtain ⟨rt, hrt, hmk⟩ := mapOrFail_mem hmap t ht
              have hmf := List.mem_filter.mp hrt
              refine ⟨rt, hmf.1, hmf.2, ?_⟩
              unfold mkCleanTweet at hmk
              cases hdate : rt.date with
              | none =>
                  have htd : tweetDate parse rt = parse fallbackDateStr := by
                    unfold tweetDate; rw [hdate]
                  rw [htd, hfb] at hmk
                  simp only [Option.some.injEq] at hmk
                  exact Or.inl ⟨rfl, by rw [← hmk]⟩
              | some s =>
                  have htd : tweetDate parse rt = parse s := by
                    unfold tweetDate; rw [hdate]
                  rw [htd] at hmk
                  cases hps : parse s with
                  | none => rw [hps] at hmk; exact absurd hmk (by simp)
                  | some dt =>
                      rw [hps] at hmk
                      simp only [Option.some.injEq] at hmk
                      exact Or.inr ⟨s, rfl, by rw [hps, ← hmk]⟩
  · intro rt hmem hkeep s hds hps
    have hrt : rt ∈ tweets.filter (keepTweet username) :=
      List.mem_filter.mpr ⟨hmem, hkeep⟩
    have hmk : mkCleanTweet cfg parse rt = none := by
      have htd : tweetDate parse rt = parse s := by
        unfold tweetDate; rw [hds]
      unfold mkCleanTweet
      rw [htd, hps]
    have hnone := mapOrFail_eq_none hrt hmk
    unfold twitterClean
    rw [hnone]
  · intro s hj hps
    have hjoin : parseJoined parse profile = none := by
      unfold parseJoined
      rw [hj]
      simp [hps]
    unfold twitterClean
    rw [hjoin]
    cases mapOrFail (mkCleanTweet cfg parse) (tweets.filter (keepTweet username)) <;>
      rfl

/-- Witness for C3's amended claim at a concrete input: a tweet with no date
key gets the fallback timestamp as its datetime (visible through the
profile's `joined`, also absent, mapped to the fallback). -/
theorem c3_witness : twData0.profile.joined = 1056639600 :=
  ((c3_missing_date_fallback cfg0 cparse "u" {} [twTweet0] 1056639600 rfl).1
      twData0 (by rfl)).1 rfl

theorem lookup_twitterAvgStats (base : List (String × Int)) (ts : List RawTweet) :
    (pyDictUpdate base (twitterAvgStats ts)).lookup "avgRetweets"
        = some (avgOf (statSum (fun s => s.retweets) ts) ts.length) ∧
    (pyDictUpdate base (twitterAvgStats ts)).lookup "avgLikes"
        = some (avgOf (statSum (fun s => s.likes) ts) ts.length) ∧
    (pyDictUpdate base (twitterAvgStats ts)).lookup "avgComments"
        = some (avgOf (statSum (fun s => s.comments) ts) ts.length) ∧
    (pyDictUpdate base (twitterAvgStats ts)).lookup "avgQuotes"
        = some (avgOf (statSum (fun s => s.quotes) ts) ts.length) := by
  unfold pyDictUpdate twitterAvgStats
  simp only [List.foldl_cons, List.foldl_nil]
  refine ⟨?_, ?_, ?_, ?_⟩
  · rw [lookup_pySetItem_ne _ _ _ _ (by decide),
      lookup_pySetItem_ne _ _ _ _ (by decide),
      lookup_pySetItem_ne _ _ _ _ (by decide),
      lookup_pySetItem_self]
  · rw [lookup_pySetItem_ne _ _ _ _ (by decide),
      lookup_pySetItem_ne _ _ _ _ (by decide),
      lookup_pySetItem_self]
  · rw [lookup_pySetItem_ne _ _ _ _ (by decide),
      lookup_pySetItem_self]
  · rw [lookup_pySetItem_self]

/-- C5: in the cleaned payload the four `avg*` keys of `profile.stats` hold
the per-tweet counters of the filtered tweet list summed (absent counters as
0), divided by the filtered count and rounded — when the filtered list is
empty they are all 0 (no division), and when it is non-empty each average is
within half of the exact mean (round to nearest, CPython's half-to-even on
ties). -/
theorem c5_rounded_averages :
    ∀ (cfg : TwCfg) (parse : String → Option Int) (username : String)
      (profile : RawProfile) (tweets ts : List RawTweet) (d : TwitterData),
      twitterClean cfg parse username profile tweets = some d →
      ts = tweets.filter (keepTweet username) →
      (d.profile.stats.lookup "avgRetweets"
          = some (avgOf (statSum (fun s => s.retweets) ts) ts.length) ∧
       d.profile.stats.lookup "avgLikes"
          = some (avgOf (statSum (fun s => s.likes) ts) ts.length) ∧
       d.profile.stats.lookup "avgComments"
          = some (avgOf (statSum (fun s => s.comments) ts) ts.length) ∧
       d.profile.stats.lookup "avgQuotes"
          = some (avgOf (statSum (fun s => s.quotes) ts) ts.length)) ∧
      (ts = [] →
        d.profile.stats.lookup "avgRetweets" = some 0 ∧
        d.profile.stats.lookup "avgLikes" = some 0 ∧
        d.profile.stats.lookup "avgComments" = some 0 ∧
        d.profile.stats.lookup "avgQuotes" = some 0) ∧
      (∀ f : RawStats → Option Int, 0 < ts.length →
        -(ts.length : Int)
            ≤ 2 * (statSum f ts - ts.length * avgOf (statSum f ts) ts.length) ∧
        2 * (statSum f ts - ts.length * avgOf (statSum f ts) ts.length)
            ≤ ts.length) := by
  intro cfg parse username profile tweets ts d hd hts
  have hstats : d.profile.stats
      = pyDictUpdate profile.stats (twitterAvgStats ts) := by
    subst hts
    unfold twitterClean at hd
    cases hmap : mapOrFail (mkCleanTweet cfg parse)
        (tweets.filter (keepTweet username)) with
    | none => rw [hmap] at hd; exact absurd hd (by simp)
    | some cleanTweets =>
        cases hjoin : parseJoined parse profile with
        | none => rw [hmap, hjoin] at hd; exact absurd hd (by simp)
        | some joined =>
            rw [hmap, hjoin] at hd
            simp only [Option.some.injEq] at hd
            rw [← hd]
  have hl := lookup_twitterAvgStats profile.stats ts
  rw [hstats]
  refine ⟨⟨hl.1, hl.2.1, hl.2.2.1, hl.2.2.2⟩, ?_, ?_⟩
  · intro hnil
    subst hnil
    exact ⟨hl.1, hl.2.1, hl.2.2.1, hl.2.2.2⟩
  · intro f hpos
    have hden : (0 : Int) < (ts.length : Int) := by exact_mod_cast hpos
    have havg : avgOf (statSum f ts) ts.length
        = pyRound (statSum f ts) ts.length := by
      unfold avgOf
      rw [if_pos hpos]
    rw [havg]
    exact pyRound_nearest (statSum f ts) (ts.length : Int) hden

/-- Witness for C5 at a concrete input: two retained tweets with retweet
counts 3 and 4; the stored average is `round(7 / 2) = 4`. -/
theorem c5_witness :
    c5data.profile.stats.lookup "avgRetweets"
        = some (avgOf (statSum (fun s => s.retweets) c5tweets) c5tweets.length) ∧
    c5data.profile.stats.lookup "avgRetweets" = some 4 :=
  ⟨((c5_rounded_averages cfg0 cparse "u" {} c5tweets c5tweets c5data (by rfl)
      (by rfl)).1).1,
   by rfl⟩

/-- C6 counterexample: a present non-numeric channel statistic is not
coerced to 0 — `int('abc')` raises, so normalization produces nothing at
all. -/
theorem c6_counterexample :
    pyInt "abc" = none ∧
    ytClean "IMG"
      { items := [{ statistics := some { viewCount := some "abc" } }] }
      { items := [] } = none :=
  ⟨rfl, rfl⟩

theorem lookup_ytBaseStats (views subs vids x y z : Int) :
    (pyDictUpdate [("views", views), ("subscribers", subs), ("videos", vids)]
        [("avgViews", x), ("avgLikes", y), ("avgComments", z)]).lookup "views"
        = some views ∧
    (pyDictUpdate [("views", views), ("subscribers", subs), ("videos", vids)]
        [("avgViews", x), ("avgLikes", y), ("avgComments", z)]).lookup
        "subscribers" = some subs ∧
    (pyDictUpdate [("views", views), ("subscribers", subs), ("videos", vids)]
        [("avgViews", x), ("avgLikes", y), ("avgComments", z)]).lookup "videos"
        = some vids := by
  unfold pyDictUpdate
  simp only [List.foldl_cons, List.foldl_nil]
  refine ⟨?_, ?_, ?_⟩ <;>
    rw [lookup_pySetItem_ne _ _ _ _ (by decide),
      lookup_pySetItem_ne _ _ _ _ (by decide),
      lookup_pySetItem_ne _ _ _ _ (by decide)] <;>
    simp [List.lookup]

/-- C6 amended: in YouTube normalization a missing channel statistic is
coerced to 0 and a missing channel or video thumbnail falls back to the
configured default image URL, and inside each video's recorded statistics
dict a non-digit value becomes 0; but a present non-numeric string raises
instead of coercing for the channel-level statistics and for a video's
`viewCount`, `likeCount` or `commentCount` read by the averages, so
normalization then yields nothing. -/
theorem c6_missing_zero_nonnumeric_raises :
    (∀ (img : String) (presp : YtProfileResp) (vresp : YtVideosResp)
       (d : YtData) (c : YtChannelItem),
      ytClean img presp vresp = some d →
      presp.items.head? = some c →
      ((c.statistics.getD {}).viewCount = none →
        d.profile.stats.lookup "views" = some 0) ∧
      ((c.statistics.getD {}).subscriberCount = none →
        d.profile.stats.lookup "subscribers" = some 0) ∧
      ((c.statistics.getD {}).videoCount = none →
        d.profile.stats.lookup "videos" = some 0) ∧
      ((((c.snippet.getD {}).thumbnails.getD {}).high.getD {}).url = none →
        d.profile.image = img) ∧
      (∀ ov ∈ d.videos, ∃ vi ∈ vresp.items,
        (∀ k s, (k, s) ∈ vi.statistics.getD [] → pyIsDigit s = false →
          (k, (0 : Int)) ∈ ov.statistics) ∧
        ((((vi.snippet.getD {}).thumbnails.getD {}).standard.getD {}).url = none →
          ov.image = img))) ∧
    (∀ (img : String) (presp : YtProfileResp) (vresp : YtVideosResp)
       (c : YtChannelItem),
      presp.items.head? = some c →
      (chanStat (c.statistics.getD {}).viewCount = none ∨
       chanStat (c.statistics.getD {}).subscriberCount = none ∨
       chanStat (c.statistics.getD {}).videoCount = none) →
      ytClean img presp vresp = none) ∧
    (∀ (img : String) (presp : YtProfileResp) (vresp : YtVideosResp)
       (vi : YtVideoItem) (key s : String), vi ∈ vresp.items →
      (key = "viewCount" ∨ key = "likeCount" ∨ key = "commentCount") →
      (vi.statistics.getD []).lookup key = some s → pyInt s = none →
      ytClean img presp vresp = none) := by
  refine ⟨?_, ?_, ?_⟩
  · intro img presp vresp d c hd hhead
    unfold ytClean at hd
    rw [hhead] at hd
    dsimp only at hd
    cases h1 : chanStat (c.statistics.getD {}).viewCount with
    | none => rw [h1] at hd; exact absurd hd (by simp)
    | some views =>
    cases h2 : chanStat (c.statistics.getD {}).subscriberCount with
    | none => rw [h1, h2] at hd; exact absurd hd (by simp)
    | some subs =>
    cases h3 : chanStat (c.statistics.getD {}).videoCount with
    | none => rw [h1, h2, h3] at hd; exact absurd hd (by simp)
    | some vids =>
    cases h4 : ytAvgStats vresp.items with
    | none => rw [h1, h2, h3, h4] at hd; exact absurd hd (by simp)
    | some avgs =>
        rw [h1, h2, h3, h4] at hd
        simp only [Option.some.injEq] at hd
        have havgs : ∃ x y z : Int,
            avgs = [("avgViews", x), ("avgLikes", y), ("avgComments", z)] := by
          unfold ytAvgStats at h4
          cases hv : vidStatSum vresp.items "viewCount" with
          | none => rw [hv] at h4; exact absurd h4 (by simp)
          | some sumV =>
          cases hlk : vidStatSum vresp.items "likeCount" with
          | none => rw [hv, hlk] at h4; exact absurd h4 (by simp)
          | some sumL =>
          cases hcm : vidStatSum vresp.items "commentCount" with
          | none => rw [hv, hlk, hcm] at h4; exact absurd h4 (by simp)
          | some sumC =>
              rw [hv, hlk, hcm] at h4
              simp only [Option.some.injEq] at h4
              exact ⟨_, _, _, h4.symm⟩
        obtain ⟨x, y, z, havgs⟩ := havgs
        subst havgs
        rw [← hd]
        refine ⟨?_, ?_, ?_, ?_, ?_⟩
        · intro hv
          rw [hv] at h1
          simp only [chanStat, Option.some.injEq] at h1
          dsimp only
          rw [← h1]
          exact (lookup_ytBaseStats 0 subs vids x y z).1
        · intro hv
          rw [hv] at h2
          simp only [chanStat, Option.some.injEq] at h2
          dsimp only
          rw [← h2]
          exact (lookup_ytBaseStats views 0 vids x y z).2.1
        · intro hv
          rw [hv] at h3
          simp only [chanStat, Option.some.injEq] at h3
          dsimp only
          rw [← h3]
          exact (lookup_ytBaseStats views subs 0 x y z).2.2
        · intro hv
          simp [hv]
        · intro ov hov
          simp only [List.mem_map] at hov
          obtain ⟨vi, hvi, hmkv⟩ := hov
          refine ⟨vi, hvi, ?_, ?_⟩
          · intro k s hks hdig
            rw [← hmkv]
            unfold mkVideo
            simp only [List.mem_map]
            exact ⟨(k, s), hks, by simp [coerceStat, hdig]⟩
          · intro hurl
            rw [← hmkv]
            unfold mkVideo
            simp [hurl]
  · intro img presp vresp c hhead hbad
    unfold ytClean
    rw [hhead]
    dsimp only
    rcases hbad with h | h | h
    · rw [h]
    · rw [h]
      cases chanStat (c.statistics.getD {}).viewCount <;> rfl
    · rw [h]
      cases chanStat (c.statistics.getD {}).viewCount <;>
        cases chanStat (c.statistics.getD {}).subscriberCount <;> rfl
  · intro img presp vresp vi key s hvi hkey hlk hps
    have hvs : vidStat key vi = none := by
      unfold vidStat
      rw [hlk]
      exact hps
    have hsum : vidStatSum vresp.items key = none := by
      unfold vidStatSum
      rw [mapOrFail_eq_none hvi hvs]
      rfl
    have havg : ytAvgStats vresp.items = none := by
      unfold ytAvgStats
      rcases hkey with rfl | rfl | rfl
      · rw [hsum]
      · rw [hsum]
        cases vidStatSum vresp.items "viewCount" <;> rfl
      · rw [hsum]
        cases vidStatSum vresp.items "viewCount" <;>
          cases vidStatSum vresp.items "likeCount" <;> rfl
    cases hhead : presp.items.head? with
    | none => unfold ytClean; rw [hhead]
    | some c =>
        unfold ytClean
        rw [hhead]
        dsimp only
        rw [havg]
        cases chanStat (c.statistics.getD {}).viewCount <;>
          cases chanStat (c.statistics.getD {}).subscriberCount <;>
          cases chanStat (c.statistics.getD {}).videoCount <;> rfl

/-- Witness for C6's amended claim at a concrete input: a channel whose
`subscriberCount` is the non-numeric string `abc` makes normalization
raise. -/
theorem c6_witness :
    ytClean "IMG"
      { items := [{ statistics := some { subscriberCount := some "abc" } }] }
      { items := [] } = none :=
  (c6_missing_zero_nonnumeric_raises.2.1 "IMG"
      { items := [{ statistics := some { subscriberCount := some "abc" } }] }
      { items := [] }
      { statistics := some { subscriberCount := some "abc" } } rfl
      (Or.inr (Or.inl rfl)))

/-- C7: every tweet kept in the normalized list has the queried username as a
substring of its url, and prepending a raw tweet whose link does not contain
the username leaves the whole normalized result — tweet list and averages —
unchanged. -/
theorem c7_username_filter :
    (∀ (cfg : TwCfg) (parse : String → Option Int) (username : String)
       (profile : RawProfile) (tweets : List RawTweet) (d : TwitterData),
      twitterClean cfg parse username profile tweets = some d →
      ∀ t ∈ d.tweets, pyIn username t.url = true) ∧
    (∀ (cfg : TwCfg) (parse : String → Option Int) (username : String)
       (profile : RawProfile) (t : RawTweet) (tweets : List RawTweet),
      keepTweet username t = false →
      twitterClean cfg parse username profile (t :: tweets)
        = twitterClean cfg parse username profile tweets) := by
  constructor
  · intro cfg parse username profile tweets d hd t ht
    have hmapsome : ∃ cleanTweets,
        mapOrFail (mkCleanTweet cfg parse) (tweets.filter (keepTweet username))
          = some cleanTweets ∧ d.tweets = cleanTweets := by
      unfold twitterClean at hd
      cases hmap : mapOrFail (mkCleanTweet cfg parse)
          (tweets.filter (keepTweet username)) with
      | none => rw [hmap] at hd; exact absurd hd (by simp)
      | some cleanTweets =>
          cases hjoin : parseJoined parse profile with
          | none => rw [hmap, hjoin] at hd; exact absurd hd (by simp)
          | some joined =>
              rw [hmap, hjoin] at hd
              simp only [Option.some.injEq] at hd
              exact ⟨cleanTweets, rfl, by rw [← hd]⟩
    obtain ⟨cleanTweets, hmap, hdt⟩ := hmapsome
    rw [hdt] at ht
    obtain ⟨rt, hrt, hmk⟩ := mapOrFail_mem hmap t ht
    have hkeep := (List.mem_filter.mp hrt).2
    have hurl : t.url = rt.link.getD "#" := by
      unfold mkCleanTweet at hmk
      cases htd : tweetDate parse rt with
      | none => rw [htd] at hmk; exact absurd hmk (by simp)
      | some dt =>
          rw [htd] at hmk
          simp only [Option.some.injEq] at hmk
          rw [← hmk]
    rw [hurl]
    unfold keepTweet at hkeep
    cases hlink : rt.link with
    | some l => rw [hlink] at hkeep; simpa using hkeep
    | none =>
        rw [hlink] at hkeep
        have hdat : username.data = [] := by
          have := of_decide_eq_true hkeep
          exact List.infix_nil.mp this
        simp only [Option.getD]
        unfold pyIn
        rw [hdat]
        simp [List.nil_infix]
  · intro cfg parse username profile t tweets hkf
    have hfil : (t :: tweets).filter (keepTweet username)
        = tweets.filter (keepTweet username) :=
      List.filter_cons_of_neg (by simp [hkf])
    unfold twitterClean
    rw [hfil]

/-- Witness for C7 at concrete inputs: a retained tweet's url contains the
username `u`, and normalization ignores a prepended tweet linking to another
account. -/
theorem c7_witness :
    pyIn "u" "u" = true ∧
    twitterClean cfg0 cparse "u" {} [{ link := some "other" }, twTweet0]
      = twitterClean cfg0 cparse "u" {} [twTweet0] :=
  ⟨c7_username_filter.1 cfg0 cparse "u" {} [twTweet0] twData0 (by rfl)
      { user := none, url := "u", text := "", picture := "",
        video := ["defvid"], statistics := {}, datetime := 1056639600 }
      (by decide),
   c7_username_filter.2 cfg0 cparse "u" {} { link := some "other" } [twTweet0]
      (by decide)⟩
